import Mathlib

/-!
Shallow embedding of the SwapShikshak matching core: the haversine
distance utility and the two-tier match engine
(src/server/utils/distance.ts).  JavaScript numbers are modelled as
real numbers; nullable coordinate strings are modelled as Option ℝ
(none = null or the empty string, which are falsy; some x = a truthy
string that parses to the number x).  Malformed numeric strings are an
external-collaborator concern and are outside the model.
-/

open Real Classical

noncomputable section

/-- Math.atan2 from the ECMAScript specification, restricted to
non-NaN arguments. -/
def atan2 (y x : ℝ) : ℝ :=
  if 0 < x then arctan (y / x)
  else if x < 0 then
    (if 0 ≤ y then arctan (y / x) + π else arctan (y / x) - π)
  else if 0 < y then π / 2
  else if y < 0 then -(π / 2)
  else 0

/-- Degree-to-radian conversion used by haversineDistance. -/
def toRadians (degrees : ℝ) : ℝ :=
  degrees * (π / 180)

/-- The intermediate value a computed inside haversineDistance:
sin(dLat/2) * sin(dLat/2) + cos(lat1) * cos(lat2) * sin(dLon/2) * sin(dLon/2),
with dLat = toRadians (lat2 - lat1) and dLon = toRadians (lon2 - lon1). -/
def havA (lat1 lon1 lat2 lon2 : ℝ) : ℝ :=
  sin (toRadians (lat2 - lat1) / 2) * sin (toRadians (lat2 - lat1) / 2) +
    cos (toRadians lat1) * cos (toRadians lat2) *
      sin (toRadians (lon2 - lon1) / 2) * sin (toRadians (lon2 - lon1) / 2)

/-- haversineDistance: great-circle distance in kilometers between two
(latitude, longitude) pairs given in degrees, Earth radius R = 6371 km,
computed as R * c with c = 2 * atan2 (sqrt a) (sqrt (1 - a)). -/
def haversineDistance (lat1 lon1 lat2 lon2 : ℝ) : ℝ :=
  6371 *
    (2 * atan2 (Real.sqrt (havA lat1 lon1 lat2 lon2))
      (Real.sqrt (1 - havA lat1 lon1 lat2 lon2)))

/-- Helper for district-name normalization: replaces every maximal run
of whitespace characters by a single underscore, as the regular
expression replacement of runs of whitespace with an underscore does.
The boolean argument records whether the previous character was
whitespace. -/
def collapseWhitespaceAux : List Char → Bool → List Char
  | [], _ => []
  | c :: cs, prevWs =>
    if c.isWhitespace then
      if prevWs then collapseWhitespaceAux cs true
      else '_' :: collapseWhitespaceAux cs true
    else c :: collapseWhitespaceAux cs false

/-- District-name normalization used by getDistrictCoordinates:
lowercase the name, then replace each run of whitespace with one
underscore. -/
def normalizeDistrict (district : String) : String :=
  String.mk (collapseWhitespaceAux (district.data.map Char.toLower) false)

/-- The static table of approximate coordinates for Bihar districts,
keyed by normalized district name; absence of a key yields none
(the record lookup with a null fallback). Pairs are (lat, lng). -/
def districtCoordinates (key : String) : Option (ℝ × ℝ) :=
  if key = "patna" then some (25.5941, 85.1376)
  else if key = "gaya" then some (24.7955, 85.0002)
  else if key = "muzaffarpur" then some (26.1209, 85.3647)
  else if key = "darbhanga" then some (26.1542, 85.8918)
  else if key = "bhagalpur" then some (25.2425, 86.9842)
  else if key = "saharsa" then some (25.8781, 86.5975)
  else if key = "purnia" then some (25.7776, 87.4753)
  else if key = "katihar" then some (25.5386, 87.5819)
  else if key = "begusarai" then some (25.4182, 86.1272)
  else if key = "samastipur" then some (25.8538, 85.7800)
  else if key = "chapra" then some (25.7805, 84.7477)
  else if key = "sitamarhi" then some (26.5947, 85.4897)
  else if key = "madhubani" then some (26.3489, 86.0644)
  else if key = "supaul" then some (26.1266, 86.6025)
  else if key = "araria" then some (26.1477, 87.5081)
  else if key = "kishanganj" then some (26.1086, 87.9542)
  else if key = "aurangabad" then some (24.7521, 84.3742)
  else if key = "jehanabad" then some (25.2078, 84.9869)
  else if key = "nalanda" then some (25.1372, 85.4441)
  else if key = "nawada" then some (24.8813, 85.5431)
  else if key = "rohtas" then some (24.9565, 84.0134)
  else if key = "buxar" then some (25.5621, 83.9730)
  else if key = "kaimur" then some (25.0408, 83.6122)
  else if key = "gopalganj" then some (26.4676, 84.4358)
  else if key = "siwan" then some (26.2194, 84.3608)
  else if key = "saran" then some (25.9222, 84.7411)
  else if key = "vaishali" then some (25.7207, 85.1303)
  else if key = "east_champaran" then some (26.6447, 84.9259)
  else if key = "west_champaran" then some (27.2307, 84.2595)
  else if key = "sheohar" then some (26.5189, 85.2961)
  else if key = "madhepura" then some (25.9215, 86.7906)
  else if key = "khagaria" then some (25.5017, 86.4751)
  else if key = "munger" then some (25.3766, 86.4731)
  else if key = "lakhisarai" then some (25.1726, 86.0920)
  else if key = "sheikhpura" then some (25.1394, 85.8500)
  else if key = "jamui" then some (24.9267, 86.2264)
  else if key = "banka" then some (24.8881, 86.9219)
  else if key = "arwal" then some (25.2520, 84.6819)
  else none

/-- getDistrictCoordinates: looks up a district by its normalized name. -/
def getDistrictCoordinates (district : String) : Option (ℝ × ℝ) :=
  districtCoordinates (normalizeDistrict district)

/-- The match classification, the string union of perfect and nearby. -/
inductive MatchType where
  | perfect
  | nearby
deriving DecidableEq

/-- The teacher profile fields read by the match engine.  Coordinate
fields are nullable strings in the source and are modelled as
Option ℝ. maxDistance carries a non-null assertion in the source and
is modelled as a plain real number. -/
structure TeacherWithUser where
  id : ℕ
  isActive : Bool
  gradeLevel : String
  currentDistrict : String
  homeDistrict : String
  preferredDistricts : List String
  maxDistance : ℝ
  currentLatitude : Option ℝ
  currentLongitude : Option ℝ
  homeLatitude : Option ℝ
  homeLongitude : Option ℝ
  currentSchoolLatitude : Option ℝ
  currentSchoolLongitude : Option ℝ
  preferredLocationLatitude : Option ℝ
  preferredLocationLongitude : Option ℝ

/-- The MatchResult record produced by findMatches. -/
structure MatchResult where
  teacher : TeacherWithUser
  matchType : MatchType
  distance : ℝ
  score : ℝ

/-- checkPerfectMatch: teacher1 wants the district of teacher2,
teacher2 wants the district of teacher1, and both teach the same grade
level.  District membership is tested by exact string equality against
the stored preferred-district values. -/
def checkPerfectMatch (teacher1 teacher2 : TeacherWithUser) : Bool :=
  teacher1.preferredDistricts.contains teacher2.currentDistrict &&
    teacher2.preferredDistricts.contains teacher1.currentDistrict &&
    (teacher1.gradeLevel == teacher2.gradeLevel)

/-- calculateDistance: direct current-location distance between two
teachers.  Precise current coordinates are used only when all four are
present; otherwise both sides fall back to the district lookup, and 0
is returned when either lookup fails. -/
def calculateDistance (teacher1 teacher2 : TeacherWithUser) : ℝ :=
  match teacher1.currentLatitude, teacher1.currentLongitude,
      teacher2.currentLatitude, teacher2.currentLongitude with
  | some lat1, some lon1, some lat2, some lon2 =>
    haversineDistance lat1 lon1 lat2 lon2
  | _, _, _, _ =>
    match getDistrictCoordinates teacher1.currentDistrict,
        getDistrictCoordinates teacher2.currentDistrict with
    | some coords1, some coords2 =>
      haversineDistance coords1.1 coords1.2 coords2.1 coords2.2
    | _, _ => 0

/-- calculateDistanceToHome: distance from the current location of a
teacher to the home location of the same teacher.  Precise coordinates
are used only when all four are present; otherwise both sides fall
back to the district lookup, and 0 is returned when either lookup
fails. -/
def calculateDistanceToHome (teacher : TeacherWithUser) : ℝ :=
  match teacher.currentLatitude, teacher.currentLongitude,
      teacher.homeLatitude, teacher.homeLongitude with
  | some lat1, some lon1, some lat2, some lon2 =>
    haversineDistance lat1 lon1 lat2 lon2
  | _, _, _, _ =>
    match getDistrictCoordinates teacher.currentDistrict,
        getDistrictCoordinates teacher.homeDistrict with
    | some currentCoords, some homeCoords =>
      haversineDistance currentCoords.1 currentCoords.2 homeCoords.1 homeCoords.2
    | _, _ => 0

/-- The teacherLat/teacherLng assignment chain in
calculateDistanceFromTeacherToHome: school coordinates, then current
coordinates, then district lookup. -/
def resolveTeacherLocation (teacher : TeacherWithUser) : Option (ℝ × ℝ) :=
  match teacher.currentSchoolLatitude, teacher.currentSchoolLongitude with
  | some lat, some lng => some (lat, lng)
  | _, _ =>
    match teacher.currentLatitude, teacher.currentLongitude with
    | some lat, some lng => some (lat, lng)
    | _, _ => getDistrictCoordinates teacher.currentDistrict

/-- The homeLat/homeLng assignment chain in
calculateDistanceFromTeacherToHome: home coordinates, then
preferred-location coordinates, then district lookup of the home
district. -/
def resolveHomeLocation (homeTeacher : TeacherWithUser) : Option (ℝ × ℝ) :=
  match homeTeacher.homeLatitude, homeTeacher.homeLongitude with
  | some lat, some lng => some (lat, lng)
  | _, _ =>
    match homeTeacher.preferredLocationLatitude,
        homeTeacher.preferredLocationLongitude with
    | some lat, some lng => some (lat, lng)
    | _, _ => getDistrictCoordinates homeTeacher.homeDistrict

/-- calculateDistanceFromTeacherToHome: distance from the location of
teacher (school, then current, then district) to the home location of
homeTeacher (home, then preferred location, then district).  The final
guard tests the four resolved numbers for truthiness, so a resolved
coordinate equal to 0 also yields 0. -/
def calculateDistanceFromTeacherToHome
    (teacher homeTeacher : TeacherWithUser) : ℝ :=
  match resolveTeacherLocation teacher, resolveHomeLocation homeTeacher with
  | some (teacherLat, teacherLng), some (homeLat, homeLng) =>
    if teacherLat ≠ 0 ∧ teacherLng ≠ 0 ∧ homeLat ≠ 0 ∧ homeLng ≠ 0 then
      haversineDistance teacherLat teacherLng homeLat homeLng
    else 0
  | _, _ => 0

/-- checkNearbyMatch: same grade level required; the other teacher must
be strictly closer to the home of the current teacher than the current
teacher is, and within maxDistance of the current teacher.  Returns
the pair (distance, score) on success.  The source binds the two
distances to the locals currentTeacherCurrentToHome and
otherTeacherToCurrentHome; they are inlined here. -/
def checkNearbyMatch
    (currentTeacher otherTeacher : TeacherWithUser) : Option (ℝ × ℝ) :=
  if currentTeacher.gradeLevel ≠ otherTeacher.gradeLevel then none
  else if calculateDistanceFromTeacherToHome otherTeacher currentTeacher <
        calculateDistanceToHome currentTeacher ∧
      calculateDistanceFromTeacherToHome otherTeacher currentTeacher ≤
        currentTeacher.maxDistance then
    some (calculateDistanceFromTeacherToHome otherTeacher currentTeacher,
      max 0 (100 -
        ((⌊calculateDistanceFromTeacherToHome otherTeacher currentTeacher / 10⌋ : ℤ) : ℝ)))
  else none

/-- The loop body of findMatches: the at-most-one MatchResult that a
single candidate contributes.  A candidate equal to the subject by id,
or inactive, is skipped; a perfect match is emitted with score 100 and
the direct current-location distance and short-circuits the nearby
check; otherwise a successful nearby check is emitted. -/
def candidateResult
    (currentTeacher teacher : TeacherWithUser) : Option MatchResult :=
  if teacher.id = currentTeacher.id ∨ teacher.isActive = false then none
  else if checkPerfectMatch currentTeacher teacher then
    some ⟨teacher, MatchType.perfect, calculateDistance currentTeacher teacher, 100⟩
  else
    match checkNearbyMatch currentTeacher teacher with
    | some (d, s) => some ⟨teacher, MatchType.nearby, d, s⟩
    | none => none

/-- The nonpositive-comparator relation of the sort at the end of
findMatches: a before b iff the comparator value of (a, b) is at most
zero, that is, a is perfect and b is not, or both have the same
classification and the distance of a is at most the distance of b. -/
def matchLe (a b : MatchResult) : Prop :=
  (a.matchType = MatchType.perfect ∧ b.matchType = MatchType.nearby) ∨
    (a.matchType = b.matchType ∧ a.distance ≤ b.distance)

/-- findMatches: one pass over the candidates collecting the loop-body
results in encounter order, then the final sort.  The ECMAScript sort
is stable and sorts by the comparator, which the stable insertion sort
with the nonpositive-comparator relation models. -/
def findMatches
    (currentTeacher : TeacherWithUser)
    (allTeachers : List TeacherWithUser) : List MatchResult :=
  List.insertionSort matchLe
    (allTeachers.filterMap (candidateResult currentTeacher))

end

/-! ### Helper lemmas about atan2 and haversineDistance -/

theorem atan2_nonneg {y : ℝ} (x : ℝ) (hy : 0 ≤ y) : 0 ≤ atan2 y x := by
  have hp := Real.pi_pos
  unfold atan2
  split_ifs
  all_goals
    first
    | linarith
    | (have h0 : 0 ≤ y / x := div_nonneg hy (le_of_lt (by assumption))
       have hm := Real.arctan_strictMono.monotone h0
       rw [Real.arctan_zero] at hm
       linarith)
    | (have ha := Real.neg_pi_div_two_lt_arctan (y / x)
       linarith)

theorem atan2_pos {y x : ℝ} (hy : 0 < y) (hx : 0 ≤ x) : 0 < atan2 y x := by
  have hp := Real.pi_pos
  unfold atan2
  split_ifs
  all_goals
    first
    | linarith
    | (have h0 : 0 < y / x := div_pos hy (by assumption)
       have hm := Real.arctan_strictMono h0
       rw [Real.arctan_zero] at hm
       linarith)

theorem haversineDistance_nonneg (lat1 lon1 lat2 lon2 : ℝ) :
    0 ≤ haversineDistance lat1 lon1 lat2 lon2 := by
  have h := atan2_nonneg (Real.sqrt (1 - havA lat1 lon1 lat2 lon2))
    (Real.sqrt_nonneg (havA lat1 lon1 lat2 lon2))
  unfold haversineDistance
  linarith

theorem haversineDistance_pos {lat1 lon1 lat2 lon2 : ℝ}
    (h : 0 < havA lat1 lon1 lat2 lon2) :
    0 < haversineDistance lat1 lon1 lat2 lon2 := by
  have hy : 0 < Real.sqrt (havA lat1 lon1 lat2 lon2) := Real.sqrt_pos.mpr h
  have hx : 0 ≤ Real.sqrt (1 - havA lat1 lon1 lat2 lon2) := Real.sqrt_nonneg _
  have ha := atan2_pos hy hx
  unfold haversineDistance
  linarith

theorem havA_self (lat lon : ℝ) : havA lat lon lat lon = 0 := by
  simp [havA, toRadians]

theorem haversineDistance_self (lat lon : ℝ) :
    haversineDistance lat lon lat lon = 0 := by
  have hz : atan2 0 1 = 0 := by
    unfold atan2
    rw [if_pos (by norm_num : (0:ℝ) < 1)]
    simp [Real.arctan_zero]
  unfold haversineDistance
  rw [havA_self, Real.sqrt_zero, sub_zero, Real.sqrt_one, hz]
  ring

theorem havA_comm (lat1 lon1 lat2 lon2 : ℝ) :
    havA lat1 lon1 lat2 lon2 = havA lat2 lon2 lat1 lon1 := by
  have h1 : Real.sin ((lat1 - lat2) * (π / 180) / 2) =
      -Real.sin ((lat2 - lat1) * (π / 180) / 2) := by
    rw [show (lat1 - lat2) * (π / 180) / 2 = -((lat2 - lat1) * (π / 180) / 2)
      from by ring, Real.sin_neg]
  have h2 : Real.sin ((lon1 - lon2) * (π / 180) / 2) =
      -Real.sin ((lon2 - lon1) * (π / 180) / 2) := by
    rw [show (lon1 - lon2) * (π / 180) / 2 = -((lon2 - lon1) * (π / 180) / 2)
      from by ring, Real.sin_neg]
  unfold havA toRadians
  rw [h1, h2]
  ring

theorem haversineDistance_comm (lat1 lon1 lat2 lon2 : ℝ) :
    haversineDistance lat1 lon1 lat2 lon2 = haversineDistance lat2 lon2 lat1 lon1 := by
  unfold haversineDistance
  rw [havA_comm lat1 lon1 lat2 lon2]

/-! ### Helper lemmas about the distance functions -/

theorem calculateDistance_nonneg (teacher1 teacher2 : TeacherWithUser) :
    0 ≤ calculateDistance teacher1 teacher2 := by
  unfold calculateDistance
  repeat' split
  all_goals first | apply haversineDistance_nonneg | exact le_refl 0

theorem calculateDistanceToHome_nonneg (teacher : TeacherWithUser) :
    0 ≤ calculateDistanceToHome teacher := by
  unfold calculateDistanceToHome
  repeat' split
  all_goals first | apply haversineDistance_nonneg | exact le_refl 0

theorem calculateDistanceFromTeacherToHome_nonneg
    (teacher homeTeacher : TeacherWithUser) :
    0 ≤ calculateDistanceFromTeacherToHome teacher homeTeacher := by
  unfold calculateDistanceFromTeacherToHome
  repeat' split
  all_goals first | apply haversineDistance_nonneg | exact le_refl 0

/-! ### Inversion lemmas for the match engine -/

theorem checkNearbyMatch_eq_some {S c : TeacherWithUser} {d s : ℝ}
    (h : checkNearbyMatch S c = some (d, s)) :
    S.gradeLevel = c.gradeLevel ∧
      d = calculateDistanceFromTeacherToHome c S ∧
      d < calculateDistanceToHome S ∧
      d ≤ S.maxDistance ∧
      s = max 0 (100 - ((⌊d / 10⌋ : ℤ) : ℝ)) := by
  unfold checkNearbyMatch at h
  split_ifs at h with hg hc
  have hds := Option.some.inj h
  have hd : d = calculateDistanceFromTeacherToHome c S := by
    have hfst := congrArg Prod.fst hds
    simpa using hfst.symm
  have hs : s = max 0 (100 -
      ((⌊calculateDistanceFromTeacherToHome c S / 10⌋ : ℤ) : ℝ)) := by
    have hsnd := congrArg Prod.snd hds
    simpa using hsnd.symm
  refine ⟨not_ne_iff.mp hg, hd, ?_, ?_, ?_⟩
  · rw [hd]; exact hc.1
  · rw [hd]; exact hc.2
  · rw [hs, hd]

theorem checkNearbyMatch_isSome_iff (S c : TeacherWithUser) :
    (checkNearbyMatch S c).isSome = true ↔
      (S.gradeLevel = c.gradeLevel ∧
        calculateDistanceFromTeacherToHome c S < calculateDistanceToHome S ∧
        calculateDistanceFromTeacherToHome c S ≤ S.maxDistance) := by
  unfold checkNearbyMatch
  split_ifs with hg hc
  · simp only [Option.isSome_none, Bool.false_eq_true, false_iff]
    intro hcontra
    exact hg hcontra.1
  · simp only [Option.isSome_some, true_iff]
    exact ⟨not_ne_iff.mp hg, hc.1, hc.2⟩
  · simp only [Option.isSome_none, Bool.false_eq_true, false_iff]
    intro hcontra
    exact hc ⟨hcontra.2.1, hcontra.2.2⟩

theorem candidateResult_eq_some {S c : TeacherWithUser} {r : MatchResult}
    (h : candidateResult S c = some r) :
    (c.id ≠ S.id ∧ c.isActive = true) ∧ r.teacher = c ∧
      ((checkPerfectMatch S c = true ∧ r.matchType = MatchType.perfect ∧
          r.distance = calculateDistance S c ∧ r.score = 100) ∨
        (checkPerfectMatch S c = false ∧ r.matchType = MatchType.nearby ∧
          checkNearbyMatch S c = some (r.distance, r.score))) := by
  unfold candidateResult at h
  split_ifs at h with hskip hperf
  · push_neg at hskip
    have hact : c.isActive = true := by simpa using hskip.2
    have hr := (Option.some.inj h).symm
    subst hr
    exact ⟨⟨hskip.1, hact⟩, rfl, Or.inl ⟨hperf, rfl, rfl, rfl⟩⟩
  · push_neg at hskip
    have hact : c.isActive = true := by simpa using hskip.2
    have hnperf : checkPerfectMatch S c = false := by simpa using hperf
    rcases hn : checkNearbyMatch S c with _ | ⟨d, s⟩
    · rw [hn] at h
      exact absurd h (by simp)
    · rw [hn] at h
      have hr := (Option.some.inj h).symm
      subst hr
      exact ⟨⟨hskip.1, hact⟩, rfl, Or.inr ⟨hnperf, rfl, rfl⟩⟩

theorem mem_findMatches_iff {S : TeacherWithUser} {cs : List TeacherWithUser}
    {r : MatchResult} :
    r ∈ findMatches S cs ↔ r ∈ cs.filterMap (candidateResult S) :=
  (List.perm_insertionSort matchLe (cs.filterMap (candidateResult S))).mem_iff

/-! ### The sort relation: totality, transitivity, stability -/

instance : IsTotal MatchResult matchLe where
  total a b := by
    unfold matchLe
    cases ha : a.matchType <;> cases hb : b.matchType <;> simp [ha, hb] <;>
      exact le_total a.distance b.distance

instance : IsTrans MatchResult matchLe where
  trans a b c hab hbc := by
    unfold matchLe at *
    rcases hab with ⟨hap, hbn⟩ | ⟨hte, hd⟩
    · rcases hbc with ⟨hbp, hcn⟩ | ⟨hte2, hd2⟩
      · rw [hbn] at hbp
        exact absurd hbp (by simp)
      · exact Or.inl ⟨hap, hte2.symm.trans hbn⟩
    · rcases hbc with ⟨hbp, hcn⟩ | ⟨hte2, hd2⟩
      · exact Or.inl ⟨hte.trans hbp, hcn⟩
      · exact Or.inr ⟨hte.trans hte2, le_trans hd hd2⟩

theorem filter_orderedInsert_of_pos {α : Type} (le : α → α → Prop)
    [DecidableRel le] (p : α → Bool) (a : α) (ha : p a = true)
    (l : List α) (h : ∀ b ∈ l, p b = true → le a b) :
    (List.orderedInsert le a l).filter p = a :: l.filter p := by
  induction l with
  | nil => simp [List.orderedInsert, ha]
  | cons b l ih =>
    rw [List.orderedInsert]
    by_cases hab : le a b
    · rw [if_pos hab]
      simp [List.filter_cons, ha]
    · have hpb : p b = false := by
        cases hb : p b
        · rfl
        · exact absurd (h b (List.mem_cons_self b l) hb) hab
      rw [if_neg hab]
      simp only [List.filter_cons, hpb, Bool.false_eq_true, if_false]
      exact ih (fun x hx hpx => h x (List.mem_cons_of_mem b hx) hpx)

theorem filter_orderedInsert_of_neg {α : Type} (le : α → α → Prop)
    [DecidableRel le] (p : α → Bool) (a : α) (ha : p a = false)
    (l : List α) :
    (List.orderedInsert le a l).filter p = l.filter p := by
  induction l with
  | nil => simp [List.orderedInsert, ha]
  | cons b l ih =>
    rw [List.orderedInsert]
    by_cases hab : le a b
    · rw [if_pos hab]
      simp [List.filter_cons, ha]
    · rw [if_neg hab]
      simp only [List.filter_cons]
      cases hb : p b <;> simp [hb, ih]

theorem filter_insertionSort {α : Type} (le : α → α → Prop)
    [DecidableRel le] (p : α → Bool) (l : List α)
    (h : ∀ a ∈ l, ∀ b ∈ l, p a = true → p b = true → le a b) :
    (List.insertionSort le l).filter p = l.filter p := by
  induction l with
  | nil => simp
  | cons x l ih =>
    rw [List.insertionSort]
    have hrec : (List.insertionSort le l).filter p = l.filter p :=
      ih (fun a ha b hb hpa hpb =>
        h a (List.mem_cons_of_mem x ha) b (List.mem_cons_of_mem x hb) hpa hpb)
    cases hx : p x
    · rw [filter_orderedInsert_of_neg le p x hx _, hrec]
      simp [List.filter_cons, hx]
    · have hins : ∀ b ∈ List.insertionSort le l, p b = true → le x b := by
        intro b hb hpb
        have hbl : b ∈ l := (List.perm_insertionSort le l).mem_iff.mp hb
        exact h x (List.mem_cons_self x l) b (List.mem_cons_of_mem x hbl) hx hpb
      rw [filter_orderedInsert_of_pos le p x hx _ hins, hrec]
      simp [List.filter_cons, hx]

/-! ### Concrete profiles used to instantiate theorems with hypotheses -/

noncomputable section

/-- A concrete subject profile with no stored coordinates and a
district name outside the lookup table. -/
def sampleSubject : TeacherWithUser :=
  { id := 1, isActive := true, gradeLevel := "primary",
    currentDistrict := "alpha", homeDistrict := "alpha",
    preferredDistricts := ["beta"], maxDistance := 100,
    currentLatitude := none, currentLongitude := none,
    homeLatitude := none, homeLongitude := none,
    currentSchoolLatitude := none, currentSchoolLongitude := none,
    preferredLocationLatitude := none, preferredLocationLongitude := none }

/-- A concrete candidate that forms a perfect match with sampleSubject. -/
def sampleCandidate : TeacherWithUser :=
  { id := 2, isActive := true, gradeLevel := "primary",
    currentDistrict := "beta", homeDistrict := "beta",
    preferredDistricts := ["alpha"], maxDistance := 100,
    currentLatitude := none, currentLongitude := none,
    homeLatitude := none, homeLongitude := none,
    currentSchoolLatitude := none, currentSchoolLongitude := none,
    preferredLocationLatitude := none, preferredLocationLongitude := none }

/-- A concrete candidate whose grade level differs from sampleSubject. -/
def sampleOtherGrade : TeacherWithUser :=
  { sampleCandidate with id := 3, gradeLevel := "secondary" }

end

/-! ### Claim theorems -/

/-- C1: for every subject S and candidate C considered by findMatches
(C not equal to S by id, C active), C is classified perfect iff the
preferred-district list of S contains the current district of C, the
preferred-district list of C contains the current district of S, and
the grade levels are equal, with exact string equality; a perfect
candidate is emitted with matchType perfect and score exactly 100 and
is never emitted as nearby. -/
theorem perfect_match_characterization (S c : TeacherWithUser)
    (hid : c.id ≠ S.id) (hact : c.isActive = true) :
    (checkPerfectMatch S c = true ↔
      (c.currentDistrict ∈ S.preferredDistricts ∧
        S.currentDistrict ∈ c.preferredDistricts ∧
        S.gradeLevel = c.gradeLevel)) ∧
    (checkPerfectMatch S c = true →
      candidateResult S c =
        some ⟨c, MatchType.perfect, calculateDistance S c, 100⟩) := by
  constructor
  · unfold checkPerfectMatch
    simp [Bool.and_eq_true, List.contains, List.elem_eq_mem, beq_iff_eq,
      and_assoc]
  · intro hp
    unfold candidateResult
    rw [if_neg, if_pos hp]
    intro hor
    rcases hor with h | h
    · exact hid h
    · rw [hact] at h
      exact Bool.true_eq_false.mp h

/-- Witness for perfect_match_characterization at concrete profiles. -/
theorem perfect_match_characterization_witness :
    checkPerfectMatch sampleSubject sampleCandidate = true ∧
    candidateResult sampleSubject sampleCandidate =
      some ⟨sampleCandidate, MatchType.perfect,
        calculateDistance sampleSubject sampleCandidate, 100⟩ := by
  have h := perfect_match_characterization sampleSubject sampleCandidate
    (by decide) rfl
  have hp : checkPerfectMatch sampleSubject sampleCandidate = true := rfl
  exact ⟨hp, h.2 hp⟩

/-- C2: for a candidate that is not a perfect match, a nearby match is
produced iff the grade levels agree, the candidate-to-subject-home
distance is strictly below the subject current-to-home distance, and
at most maxDistance of the subject; on success the emitted distance is
the candidate-to-subject-home distance and the score is
max 0 (100 - floor(d / 10)), giving 100 at d = 0, 91 at d = 95 and 0
at d = 1000. -/
theorem nearby_match_characterization (S c : TeacherWithUser)
    (hperf : checkPerfectMatch S c = false) :
    ((checkNearbyMatch S c).isSome = true ↔
      (S.gradeLevel = c.gradeLevel ∧
        calculateDistanceFromTeacherToHome c S < calculateDistanceToHome S ∧
        calculateDistanceFromTeacherToHome c S ≤ S.maxDistance)) ∧
    (c.id ≠ S.id → c.isActive = true → ∀ d s : ℝ,
      checkNearbyMatch S c = some (d, s) →
      candidateResult S c = some ⟨c, MatchType.nearby, d, s⟩) ∧
    (∀ d s : ℝ, checkNearbyMatch S c = some (d, s) →
      d = calculateDistanceFromTeacherToHome c S ∧
      s = max 0 (100 - ((⌊d / 10⌋ : ℤ) : ℝ)) ∧
      (d = 0 → s = 100) ∧ (d = 95 → s = 91) ∧ (d = 1000 → s = 0)) := by
  refine ⟨checkNearbyMatch_isSome_iff S c, ?_, ?_⟩
  · intro hid hact d s hn
    unfold candidateResult
    rw [if_neg, if_neg, hn]
    · rw [hperf]
      exact Bool.false_ne_true
    · intro hor
      rcases hor with h | h
      · exact hid h
      · rw [hact] at h
        exact Bool.true_eq_false.mp h
  intro d s hsome
  obtain ⟨-, hd, -, -, hs⟩ := checkNearbyMatch_eq_some hsome
  refine ⟨hd, hs, ?_, ?_, ?_⟩
  · intro h0
    subst h0
    rw [hs]
    norm_num
  · intro h95
    subst h95
    rw [hs]
    rw [show ((95 : ℝ) / 10) = 9.5 from by norm_num]
    rw [show (⌊(9.5 : ℝ)⌋ : ℤ) = 9 from
      Int.floor_eq_iff.mpr (by constructor <;> norm_num)]
    norm_num
  · intro h1000
    subst h1000
    rw [hs]
    rw [show ((1000 : ℝ) / 10) = 100 from by norm_num]
    rw [show (⌊(100 : ℝ)⌋ : ℤ) = 100 from
      Int.floor_eq_iff.mpr (by constructor <;> norm_num)]
    norm_num

/-- Witness for nearby_match_characterization at concrete profiles. -/
theorem nearby_match_characterization_witness :
    (checkNearbyMatch sampleSubject sampleOtherGrade).isSome = true ↔
      (sampleSubject.gradeLevel = sampleOtherGrade.gradeLevel ∧
        calculateDistanceFromTeacherToHome sampleOtherGrade sampleSubject <
          calculateDistanceToHome sampleSubject ∧
        calculateDistanceFromTeacherToHome sampleOtherGrade sampleSubject ≤
          sampleSubject.maxDistance) :=
  (nearby_match_characterization sampleSubject sampleOtherGrade rfl).1

/-- C7: the perfect-match predicate is symmetric in its two profiles. -/
theorem checkPerfectMatch_symm (S C : TeacherWithUser)
    (h : checkPerfectMatch S C = true) : checkPerfectMatch C S = true := by
  unfold checkPerfectMatch at h ⊢
  simp only [Bool.and_eq_true, beq_iff_eq] at h ⊢
  exact ⟨⟨h.1.2, h.1.1⟩, h.2.symm⟩

/-- Witness for checkPerfectMatch_symm at concrete profiles. -/
theorem checkPerfectMatch_symm_witness :
    checkPerfectMatch sampleCandidate sampleSubject = true :=
  checkPerfectMatch_symm sampleSubject sampleCandidate rfl

/-- C8: haversineDistance is symmetric in its two coordinate pairs and
vanishes on equal pairs. -/
theorem haversineDistance_symm_and_self :
    (∀ lat1 lon1 lat2 lon2 : ℝ,
      haversineDistance lat1 lon1 lat2 lon2 =
        haversineDistance lat2 lon2 lat1 lon1) ∧
    (∀ lat lon : ℝ, haversineDistance lat lon lat lon = 0) :=
  ⟨haversineDistance_comm, haversineDistance_self⟩

/-- C10: findMatches does not read the isActive flag of the subject:
changing only that field leaves the result list unchanged. -/
theorem findMatches_ignores_subject_isActive
    (S : TeacherWithUser) (cs : List TeacherWithUser) (b : Bool) :
    findMatches { S with isActive := b } cs = findMatches S cs := rfl

/-- C3: the list returned by findMatches is pairwise ordered with
classification as the primary key (perfect before nearby) and
non-decreasing distance within a classification, and the sort is
stable: for each classification and distance, the tied results appear
exactly as in the unsorted pass over the candidates in input order. -/
theorem findMatches_sorted_and_stable
    (S : TeacherWithUser) (cs : List TeacherWithUser) :
    (findMatches S cs).Pairwise matchLe ∧
    (∀ (t : MatchType) (d : ℝ),
      (findMatches S cs).filter
          (fun r => decide (r.matchType = t ∧ r.distance = d)) =
        (cs.filterMap (candidateResult S)).filter
          (fun r => decide (r.matchType = t ∧ r.distance = d))) := by
  constructor
  · exact List.sorted_insertionSort matchLe (cs.filterMap (candidateResult S))
  · intro t d
    unfold findMatches
    apply filter_insertionSort
    intro a _ b _ hpa hpb
    have hpa' := of_decide_eq_true hpa
    have hpb' := of_decide_eq_true hpb
    exact Or.inr ⟨hpa'.1.trans hpb'.1.symm,
      le_of_eq (hpa'.2.trans hpb'.2.symm)⟩

/-- C4: a result of findMatches never carries the subject itself (by
id) nor an inactive candidate. -/
theorem findMatches_excludes_self_and_inactive
    (S : TeacherWithUser) (cs : List TeacherWithUser) (r : MatchResult)
    (hr : r ∈ findMatches S cs) :
    r.teacher.id ≠ S.id ∧ r.teacher.isActive = true := by
  rw [mem_findMatches_iff] at hr
  obtain ⟨c, _, hcr⟩ := List.mem_filterMap.mp hr
  obtain ⟨⟨hid, hact⟩, hteq, -⟩ := candidateResult_eq_some hcr
  rw [hteq]
  exact ⟨hid, hact⟩

/-- Witness for findMatches_excludes_self_and_inactive at concrete
profiles. -/
theorem findMatches_excludes_self_and_inactive_witness :
    (⟨sampleCandidate, MatchType.perfect, 0, 100⟩ : MatchResult).teacher.id ≠
        sampleSubject.id ∧
      (⟨sampleCandidate, MatchType.perfect, 0, 100⟩ :
        MatchResult).teacher.isActive = true :=
  findMatches_excludes_self_and_inactive sampleSubject [sampleCandidate] _
    (List.mem_singleton_self _)

/-- C9: when the home-distance leg of the subject is 0, findMatches
produces no nearby results at all: a nearby match needs a
candidate-to-home distance strictly below 0, impossible since
distances are nonnegative. -/
theorem no_nearby_when_home_distance_zero
    (S : TeacherWithUser) (cs : List TeacherWithUser)
    (h : calculateDistanceToHome S = 0) (r : MatchResult)
    (hr : r ∈ findMatches S cs) : r.matchType ≠ MatchType.nearby := by
  rw [mem_findMatches_iff] at hr
  obtain ⟨c, _, hcr⟩ := List.mem_filterMap.mp hr
  obtain ⟨-, -, hcase⟩ := candidateResult_eq_some hcr
  rcases hcase with ⟨-, hmt, -, -⟩ | ⟨-, hmt, hnb⟩
  · rw [hmt]
    simp
  · exfalso
    obtain ⟨-, hd, hlt, -, -⟩ := checkNearbyMatch_eq_some hnb
    rw [h] at hlt
    have hge := calculateDistanceFromTeacherToHome_nonneg c S
    rw [← hd] at hge
    linarith

/-- Witness for no_nearby_when_home_distance_zero at concrete
profiles. -/
theorem no_nearby_when_home_distance_zero_witness :
    (⟨sampleCandidate, MatchType.perfect, 0, 100⟩ : MatchResult).matchType ≠
      MatchType.nearby :=
  no_nearby_when_home_distance_zero sampleSubject [sampleCandidate] rfl _
    (List.mem_singleton_self _)

/-- C6: every result of findMatches has nonnegative distance and a
score inside [0, 100]; and whenever an endpoint of a distance leg has
no resolvable coordinate data, that leg computes exactly 0. -/
theorem findMatches_distance_score_bounds :
    (∀ (S : TeacherWithUser) (cs : List TeacherWithUser) (r : MatchResult),
      r ∈ findMatches S cs →
        0 ≤ r.distance ∧ 0 ≤ r.score ∧ r.score ≤ 100) ∧
    (∀ t1 t2 : TeacherWithUser,
      ((t1.currentLatitude = none ∨ t1.currentLongitude = none) ∧
          getDistrictCoordinates t1.currentDistrict = none) ∨
        ((t2.currentLatitude = none ∨ t2.currentLongitude = none) ∧
          getDistrictCoordinates t2.currentDistrict = none) →
        calculateDistance t1 t2 = 0) ∧
    (∀ t : TeacherWithUser,
      ((t.currentLatitude = none ∨ t.currentLongitude = none) ∧
          getDistrictCoordinates t.currentDistrict = none) ∨
        ((t.homeLatitude = none ∨ t.homeLongitude = none) ∧
          getDistrictCoordinates t.homeDistrict = none) →
        calculateDistanceToHome t = 0) ∧
    (∀ t h : TeacherWithUser,
      resolveTeacherLocation t = none ∨ resolveHomeLocation h = none →
        calculateDistanceFromTeacherToHome t h = 0) := by
  refine ⟨?_, ?_, ?_, ?_⟩
  · intro S cs r hr
    rw [mem_findMatches_iff] at hr
    obtain ⟨c, _, hcr⟩ := List.mem_filterMap.mp hr
    obtain ⟨-, -, hcase⟩ := candidateResult_eq_some hcr
    rcases hcase with ⟨-, -, hdist, hscore⟩ | ⟨-, -, hnb⟩
    · rw [hdist, hscore]
      refine ⟨calculateDistance_nonneg S c, by norm_num, by norm_num⟩
    · obtain ⟨-, hd, -, -, hs⟩ := checkNearbyMatch_eq_some hnb
      have hdn : 0 ≤ r.distance := by
        rw [hd]
        exact calculateDistanceFromTeacherToHome_nonneg c S
      have hfl : (0 : ℝ) ≤ ((⌊r.distance / 10⌋ : ℤ) : ℝ) := by
        have hq : (0 : ℝ) ≤ r.distance / 10 := by positivity
        exact_mod_cast Int.floor_nonneg.mpr hq
      refine ⟨hdn, ?_, ?_⟩
      · rw [hs]
        exact le_max_left 0 _
      · rw [hs]
        apply max_le (by norm_num)
        linarith
  · intro t1 t2 hmiss
    unfold calculateDistance
    rcases hmiss with ⟨hopt, hd⟩ | ⟨hopt, hd⟩ <;>
      cases h1l : t1.currentLatitude <;> cases h1o : t1.currentLongitude <;>
      cases h2l : t2.currentLatitude <;> cases h2o : t2.currentLongitude <;>
      rcases hopt with h | h <;> simp_all
  · intro t hmiss
    unfold calculateDistanceToHome
    rcases hmiss with ⟨hopt, hd⟩ | ⟨hopt, hd⟩ <;>
      cases h1l : t.currentLatitude <;> cases h1o : t.currentLongitude <;>
      cases h2l : t.homeLatitude <;> cases h2o : t.homeLongitude <;>
      rcases hopt with h | h <;> simp_all
  · intro t h hres
    unfold calculateDistanceFromTeacherToHome
    rcases hres with h1 | h1
    · rw [h1]
    · rw [h1]
      rcases hrt : resolveTeacherLocation t with _ | ⟨a, b⟩ <;> rfl

/-- Witness for findMatches_distance_score_bounds at concrete
profiles. -/
theorem findMatches_distance_score_bounds_witness :
    0 ≤ (⟨sampleCandidate, MatchType.perfect, 0, 100⟩ : MatchResult).distance ∧
      0 ≤ (⟨sampleCandidate, MatchType.perfect, 0, 100⟩ : MatchResult).score ∧
      (⟨sampleCandidate, MatchType.perfect, 0, 100⟩ : MatchResult).score ≤ 100 :=
  findMatches_distance_score_bounds.1 sampleSubject [sampleCandidate] _
    (List.mem_singleton_self _)

/-! ### C5: independent coordinate resolution, spec-side definitions -/

noncomputable section

/-- Written from the words of the spec (coordinate resolution
priority, current-location role): explicit precise current
coordinates for this endpoint alone, then the district lookup.  Used
only to compare the spec description against calculateDistance. -/
def specResolveCurrentLocation (t : TeacherWithUser) : Option (ℝ × ℝ) :=
  match t.currentLatitude, t.currentLongitude with
  | some lat, some lng => some (lat, lng)
  | _, _ => getDistrictCoordinates t.currentDistrict

/-- Written from the words of the spec: the direct current-location
distance with the two endpoints resolved independently, yielding 0
when an endpoint remains unresolved. -/
def specCalculateDistanceIndependent (t1 t2 : TeacherWithUser) : ℝ :=
  match specResolveCurrentLocation t1, specResolveCurrentLocation t2 with
  | some c1, some c2 => haversineDistance c1.1 c1.2 c2.1 c2.2
  | _, _ => 0

/-- A teacher holding precise current coordinates (the patna table
entry) while its stored current district is gaya. -/
def indepCounterTeacher1 : TeacherWithUser :=
  { id := 10, isActive := true, gradeLevel := "primary",
    currentDistrict := "gaya", homeDistrict := "gaya",
    preferredDistricts := [], maxDistance := 100,
    currentLatitude := some 25.5941, currentLongitude := some 85.1376,
    homeLatitude := none, homeLongitude := none,
    currentSchoolLatitude := none, currentSchoolLongitude := none,
    preferredLocationLatitude := none, preferredLocationLongitude := none }

/-- A teacher with no precise coordinates whose current district is
patna. -/
def indepCounterTeacher2 : TeacherWithUser :=
  { id := 11, isActive := true, gradeLevel := "primary",
    currentDistrict := "patna", homeDistrict := "patna",
    preferredDistricts := [], maxDistance := 100,
    currentLatitude := none, currentLongitude := none,
    homeLatitude := none, homeLongitude := none,
    currentSchoolLatitude := none, currentSchoolLongitude := none,
    preferredLocationLatitude := none, preferredLocationLongitude := none }

end

/-- The haversine intermediate value a is strictly positive between
the gaya and patna table coordinates. -/
theorem gaya_patna_havA_pos :
    0 < havA 24.7955 85.0002 25.5941 85.1376 := by
  have hp := Real.pi_pos
  unfold havA toRadians
  rw [show ((25.5941 : ℝ) - 24.7955) = 0.7986 from by norm_num]
  rw [show ((85.1376 : ℝ) - 85.0002) = 0.1374 from by norm_num]
  have hw1 : (0 : ℝ) < 0.7986 * (π / 180) / 2 := by positivity
  have hw1p : (0.7986 : ℝ) * (π / 180) / 2 < π := by linarith
  have hs1 : 0 < Real.sin (0.7986 * (π / 180) / 2) :=
    Real.sin_pos_of_pos_of_lt_pi hw1 hw1p
  have hc1 : 0 < Real.cos (24.7955 * (π / 180)) := by
    apply Real.cos_pos_of_mem_Ioo
    rw [Set.mem_Ioo]
    constructor <;> linarith
  have hc2 : 0 < Real.cos (25.5941 * (π / 180)) := by
    apply Real.cos_pos_of_mem_Ioo
    rw [Set.mem_Ioo]
    constructor <;> linarith
  have hs2 := mul_self_nonneg (Real.sin (0.1374 * (π / 180) / 2))
  have hkey : 0 ≤ Real.cos (24.7955 * (π / 180)) * Real.cos (25.5941 * (π / 180)) *
      (Real.sin (0.1374 * (π / 180) / 2) * Real.sin (0.1374 * (π / 180) / 2)) :=
    mul_nonneg (mul_pos hc1 hc2).le hs2
  nlinarith [mul_pos hs1 hs1, hkey]

/-- C5 counterexample: calculateDistance does not resolve its two
endpoints independently.  With precise coordinates on one side only,
the code discards them and compares district lookups, while the
independent resolution of the spec uses them: the two values differ
on this concrete input. -/
theorem calculateDistance_not_independent_counterexample :
    calculateDistance indepCounterTeacher1 indepCounterTeacher2 ≠
      specCalculateDistanceIndependent indepCounterTeacher1
        indepCounterTeacher2 := by
  have h1 : calculateDistance indepCounterTeacher1 indepCounterTeacher2 =
      haversineDistance 24.7955 85.0002 25.5941 85.1376 := rfl
  have h2 : specCalculateDistanceIndependent indepCounterTeacher1
      indepCounterTeacher2 =
      haversineDistance 25.5941 85.1376 25.5941 85.1376 := rfl
  rw [h1, h2, haversineDistance_self]
  exact ne_of_gt (haversineDistance_pos gaya_patna_havA_pos)

/-- C5 amended: only calculateDistanceFromTeacherToHome resolves its
two endpoints independently in strict priority order (school, then
current, then district for the candidate; home, then preferred
location, then district for the subject home), yielding 0 when either
endpoint fails to resolve.  calculateDistance and
calculateDistanceToHome use precise coordinates only when all four
precise values are present; with any of them missing, both endpoints
fall back to the district lookup even when one endpoint has precise
coordinates, and the distance is 0 when either lookup fails. -/
theorem coordinate_resolution_amended :
    (∀ (t : TeacherWithUser) (lat lng : ℝ),
      t.currentSchoolLatitude = some lat →
      t.currentSchoolLongitude = some lng →
        resolveTeacherLocation t = some (lat, lng)) ∧
    (∀ (t : TeacherWithUser) (lat lng : ℝ),
      (t.currentSchoolLatitude = none ∨ t.currentSchoolLongitude = none) →
        t.currentLatitude = some lat → t.currentLongitude = some lng →
        resolveTeacherLocation t = some (lat, lng)) ∧
    (∀ t : TeacherWithUser,
      (t.currentSchoolLatitude = none ∨ t.currentSchoolLongitude = none) →
      (t.currentLatitude = none ∨ t.currentLongitude = none) →
        resolveTeacherLocation t = getDistrictCoordinates t.currentDistrict) ∧
    (∀ (h : TeacherWithUser) (lat lng : ℝ),
      h.homeLatitude = some lat → h.homeLongitude = some lng →
        resolveHomeLocation h = some (lat, lng)) ∧
    (∀ (h : TeacherWithUser) (lat lng : ℝ),
      (h.homeLatitude = none ∨ h.homeLongitude = none) →
        h.preferredLocationLatitude = some lat →
        h.preferredLocationLongitude = some lng →
        resolveHomeLocation h = some (lat, lng)) ∧
    (∀ h : TeacherWithUser,
      (h.homeLatitude = none ∨ h.homeLongitude = none) →
      (h.preferredLocationLatitude = none ∨
          h.preferredLocationLongitude = none) →
        resolveHomeLocation h = getDistrictCoordinates h.homeDistrict) ∧
    (∀ t h : TeacherWithUser,
      resolveTeacherLocation t = none ∨ resolveHomeLocation h = none →
        calculateDistanceFromTeacherToHome t h = 0) ∧
    (∀ t1 t2 : TeacherWithUser,
      (t1.currentLatitude = none ∨ t1.currentLongitude = none ∨
          t2.currentLatitude = none ∨ t2.currentLongitude = none) →
        calculateDistance t1 t2 =
          (match getDistrictCoordinates t1.currentDistrict,
              getDistrictCoordinates t2.currentDistrict with
            | some c1, some c2 => haversineDistance c1.1 c1.2 c2.1 c2.2
            | _, _ => 0)) ∧
    (∀ t : TeacherWithUser,
      (t.currentLatitude = none ∨ t.currentLongitude = none ∨
          t.homeLatitude = none ∨ t.homeLongitude = none) →
        calculateDistanceToHome t =
          (match getDistrictCoordinates t.currentDistrict,
              getDistrictCoordinates t.homeDistrict with
            | some c1, some c2 => haversineDistance c1.1 c1.2 c2.1 c2.2
            | _, _ => 0)) := by
  refine ⟨?_, ?_, ?_, ?_, ?_, ?_, ?_, ?_, ?_⟩
  · intro t lat lng hla hlo
    unfold resolveTeacherLocation
    rw [hla, hlo]
  · intro t lat lng hsch hla hlo
    unfold resolveTeacherLocation
    cases hsl : t.currentSchoolLatitude <;>
      cases hso : t.currentSchoolLongitude <;> rw [hla, hlo] <;>
      first | rfl | simp_all
  · intro t hsch hcur
    unfold resolveTeacherLocation
    cases hsl : t.currentSchoolLatitude <;>
      cases hso : t.currentSchoolLongitude <;>
      cases hcl : t.currentLatitude <;> cases hco : t.currentLongitude <;>
      first | rfl | simp_all
  · intro h lat lng hla hlo
    unfold resolveHomeLocation
    rw [hla, hlo]
  · intro h lat lng hhome hla hlo
    unfold resolveHomeLocation
    cases hhl : h.homeLatitude <;> cases hho : h.homeLongitude <;>
      rw [hla, hlo] <;> first | rfl | simp_all
  · intro h hhome hpref
    unfold resolveHomeLocation
    cases hhl : h.homeLatitude <;> cases hho : h.homeLongitude <;>
      cases hpl : h.preferredLocationLatitude <;>
      cases hpo : h.preferredLocationLongitude <;>
      first | rfl | simp_all
  · intro t h hres
    unfold calculateDistanceFromTeacherToHome
    rcases hres with h1 | h1
    · rw [h1]
    · rw [h1]
      rcases hrt : resolveTeacherLocation t with _ | ⟨a, b⟩ <;> rfl
  · intro t1 t2 hmiss
    unfold calculateDistance
    cases h1l : t1.currentLatitude <;> cases h1o : t1.currentLongitude <;>
      cases h2l : t2.currentLatitude <;> cases h2o : t2.currentLongitude <;>
      first | rfl | simp_all
  · intro t hmiss
    unfold calculateDistanceToHome
    cases h1l : t.currentLatitude <;> cases h1o : t.currentLongitude <;>
      cases h2l : t.homeLatitude <;> cases h2o : t.homeLongitude <;>
      first | rfl | simp_all

/-- Witness for coordinate_resolution_amended at a concrete profile. -/
theorem coordinate_resolution_amended_witness :
    resolveTeacherLocation sampleCandidate =
      getDistrictCoordinates sampleCandidate.currentDistrict :=
  coordinate_resolution_amended.2.2.1 sampleCandidate (Or.inl rfl)
    (Or.inl rfl)
